import Mathlib

/-!
Shallow embedding of `auto_config_parser` (file
`src/auto_config_parser/auto_config_parser.py`), a subclass of Python's
`configparser.ConfigParser` that reloads its INI file from disk.

Modelling conventions:
* Paths are strings; the filesystem is an explicit `FSState` mapping paths to
  file contents, plus a symlink table (`Path.resolve()` follows the table).
* The INI text format is handled by the external `configparser` machinery,
  which the spec declares out of scope ("assume a ready-made capability:
  parse(text) -> ConfigStore").  A file's content is therefore modelled
  directly as either a well-formed `ConfigStore` (an empty file parses to a
  store with zero sections) or a malformed blob on which parsing raises.
* Exceptions are modelled as explicit error flags / `Except` results.
* The watchdog observer is modelled at its contract level: while the observer
  is active, directory events are dispatched to the handler's `on_modified`;
  after `close()` (observer stopped and joined) no events are delivered.
-/

/-- In-memory configuration data of a `configparser.ConfigParser`:
a list of sections, each holding an association list of option/value pairs.
This is the `ConfigStore` of the data model. -/
structure ConfigStore where
  sections : List (String × List (String × String))
deriving DecidableEq

/-- The store with zero sections (state after `ConfigParser.clear`, ignoring
the always-present empty DEFAULT section, which the repository never uses). -/
def ConfigStore.empty : ConfigStore := ⟨[]⟩

/-- Value lookup, as performed by `ConfigParser.get(section, option)` on the
in-memory data (the repository uses no DEFAULT-section values and no
interpolation). -/
def ConfigStore.lookup (c : ConfigStore) (sec opt : String) : Option String :=
  match c.sections.lookup sec with
  | none => none
  | some opts => opts.lookup opt

/-- Content of a regular file as seen through the external parse capability:
either it parses to a `ConfigStore` (an empty file parses to zero sections),
or it is malformed and parsing raises. -/
inductive FileData
  | wellFormed (store : ConfigStore)
  | malformed
deriving DecidableEq

/-- Filesystem state: regular files by canonical path, a symlink table
(link path to target path), and a writability flag modelling whether
creating/opening files for writing succeeds (false models e.g. a read-only
or permission-denied directory). -/
structure FSState where
  files : List (String × FileData)
  links : List (String × String)
  writable : Bool
deriving DecidableEq

/-- Follow the symlink table at most `n` times (helper for `resolvePath`). -/
def resolveFuel (fs : FSState) : Nat → String → String
  | 0, p => p
  | n + 1, p =>
    match fs.links.lookup p with
    | some t => resolveFuel fs n t
    | none => p

/-- `pathlib.Path.resolve()`: canonicalize a path by following symlinks to the
ultimate target.  Fuel-bounded by the size of the symlink table. -/
def FSState.resolvePath (fs : FSState) (p : String) : String :=
  resolveFuel fs (fs.links.length + 1) p

/-- Regular-file lookup at a canonical path. -/
def FSState.getFile (fs : FSState) (p : String) : Option FileData :=
  fs.files.lookup p

/-- Create or overwrite the regular file at a canonical path. -/
def FSState.setFile (fs : FSState) (p : String) (d : FileData) : FSState :=
  { fs with files := (p, d) :: fs.files.filter (fun e => e.1 != p) }

/-- Final path component (file name) of a path: the characters after the
last path separator. -/
def baseName (p : String) : String :=
  String.mk ((p.data.reverse.takeWhile (fun c => c != '/')).reverse)

/-- State of one `AutoConfigParser` instance:
`filePath` is `self._file_path` (resolved once, in `__init__`),
`store` is the inherited `ConfigParser` in-memory data, and
`observerActive` records whether `self._observer` is not `None`. -/
structure ACPState where
  filePath : String
  store : ConfigStore
  observerActive : Bool
deriving DecidableEq

/-- `ConfigParser.read(path)` starting from in-memory data `st`:
a missing (or unreadable) file is silently skipped (`OSError` is caught
inside `read`), a well-formed file merges its sections into `st`, and a
malformed file raises a parsing error (second component `true`). -/
def configRead (fs : FSState) (p : String) (st : ConfigStore) : ConfigStore × Bool :=
  match fs.getFile p with
  | none => (st, false)
  | some (.wellFormed s) => (⟨st.sections ++ s.sections⟩, false)
  | some .malformed => (st, true)

/-- The store and error flag produced by clearing and then re-reading the
file at `p`: `super().clear()` followed by `super().read(p)`. -/
def readOutcome (fs : FSState) (p : String) : ConfigStore × Bool :=
  configRead fs p ConfigStore.empty

/-- `AutoConfigParser._reload_from_disk`: under `self._lock`, clear the
current data and re-read the file at `self._file_path`.  Returns the mutated
instance state and whether a parsing error escaped (the method has no
try/except, so a malformed file leaves the store cleared and raises). -/
def reloadFromDisk (fs : FSState) (st : ACPState) : ACPState × Bool :=
  ({ st with store := (readOutcome fs st.filePath).1 }, (readOutcome fs st.filePath).2)

/-- Errors observable from `AutoConfigParser.get`:
`parseError` is a `configparser` parsing error escaping the implicit reload;
`noSection` is `configparser.NoSectionError` (the spec's
SectionNotFoundError); `noOption` is `configparser.NoOptionError` (the
spec's OptionNotFoundError). -/
inductive GetErr
  | parseError
  | noSection
  | noOption
deriving DecidableEq

instance {e a : Type} [DecidableEq e] [DecidableEq a] : DecidableEq (Except e a) := fun x y =>
  match x, y with
  | .ok u, .ok v =>
    if h : u = v then .isTrue (by rw [h]) else .isFalse (fun hc => by cases hc; exact h rfl)
  | .error u, .error v =>
    if h : u = v then .isTrue (by rw [h]) else .isFalse (fun hc => by cases hc; exact h rfl)
  | .ok _, .error _ => .isFalse (fun hc => by cases hc)
  | .error _, .ok _ => .isFalse (fun hc => by cases hc)

/-- Outcome of the `super().get(section, option, fallback=...)` step applied
to the store/error pair left by the preceding reload: `ConfigParser.get`
returns the stored value when present and otherwise raises
`NoSectionError`/`NoOptionError` unless a fallback was supplied, in which
case the fallback is returned. -/
def getResult (r : ConfigStore × Bool) (sec opt : String) (fb : Option String) :
    Except GetErr String :=
  if r.2 = true then .error .parseError
  else
    match r.1.sections.lookup sec with
    | none =>
      match fb with
      | some f => .ok f
      | none => .error .noSection
    | some opts =>
      match opts.lookup opt with
      | some v => .ok v
      | none =>
        match fb with
        | some f => .ok f
        | none => .error .noOption

/-- `AutoConfigParser.get(section, option, fallback=...)`: first calls
`self._reload_from_disk()` (whose parsing error would propagate to the
caller), then `super().get`.  Returns the mutated instance state and the
call's outcome. -/
def acpGet (fs : FSState) (st : ACPState) (sec opt : String) (fb : Option String) :
    ACPState × Except GetErr String :=
  ((reloadFromDisk fs st).1,
    getResult ((reloadFromDisk fs st).1.store, (reloadFromDisk fs st).2) sec opt fb)

/-- `AutoConfigParser.__init__(path)`: resolve the user path once and store it
in `self._file_path`; if the target file does not exist, try to create it
empty, silently swallowing any exception (`except Exception as e: pass`);
perform the initial `_reload_from_disk` (a parsing error here propagates out
of the constructor); finally schedule and start the watchdog observer on the
parent directory of the resolved path. -/
def acpInit (fs : FSState) (userPath : String) : Except Unit (FSState × ACPState) :=
  let fp := fs.resolvePath userPath
  let fs1 :=
    match fs.getFile fp with
    | some _ => fs
    | none => if fs.writable = true then fs.setFile fp (.wellFormed ConfigStore.empty) else fs
  let r := reloadFromDisk fs1 { filePath := fp, store := ConfigStore.empty, observerActive := false }
  if r.2 = true then .error () else .ok (fs1, { r.1 with observerActive := true })

/-- A watchdog filesystem event as seen by the handler: the source path of
the changed directory entry and whether the event concerns a directory. -/
structure FsEvent where
  srcPath : String
  isDirectory : Bool
deriving DecidableEq

/-- `_ConfigFileChangeHandler.on_modified(event)`: reload if and only if the
event is not a directory event and `Path(event.src_path).resolve()` equals
the construction-time `self._parser._file_path`; otherwise do nothing.
Returns the (possibly) mutated instance state and whether a parsing error
escaped the reload. -/
def onModified (fs : FSState) (ev : FsEvent) (st : ACPState) : ACPState × Bool :=
  if ev.isDirectory = false ∧ fs.resolvePath ev.srcPath = st.filePath then
    reloadFromDisk fs st
  else (st, false)

/-- Event delivery through the watchdog observer: while the observer is
running, directory events are dispatched to `on_modified`; after `close()`
has stopped and joined the observer, no further events are delivered
(watchdog's stop/join contract). -/
def deliverEvent (fs : FSState) (ev : FsEvent) (st : ACPState) : ACPState × Bool :=
  if st.observerActive = true then onModified fs ev st else (st, false)

/-- `AutoConfigParser.close()`: under the lock, if the observer is still
present, stop and join it and set `self._observer = None`; calling it again
is a no-op. -/
def acpClose (st : ACPState) : ACPState :=
  { st with observerActive := false }

/-- One low-level persistence step performed (or not performed) by
`AutoConfigParser.write`.  The constructors `writeTempFile` and `renameInto`
describe the temp-file-then-rename protocol; the code never emits them. -/
inductive WriteOp
  | toStream (streamId : Nat) (data : ConfigStore)
  | openTruncateWrite (path : String) (data : ConfigStore)
  | writeTempFile (path : String) (data : ConfigStore)
  | renameInto (tmpPath dstPath : String)
deriving DecidableEq

/-- `AutoConfigParser.write(fp)`: serialize the in-memory store to the
caller-supplied file-like object `fp` (`super().write(fp)`), then open
`self._file_path` with mode "w" (truncating, in place) and serialize the
store again.  If opening the configured path fails, the `OSError`
propagates (last component `true`).  Returns the new filesystem, the
(unchanged) instance state, the trace of persistence steps, and the error
flag. -/
def acpWrite (fs : FSState) (st : ACPState) (streamId : Nat) :
    FSState × ACPState × List WriteOp × Bool :=
  if fs.writable = true then
    (fs.setFile st.filePath (.wellFormed st.store), st,
      [WriteOp.toStream streamId st.store, WriteOp.openTruncateWrite st.filePath st.store],
      false)
  else
    (fs, st, [WriteOp.toStream streamId st.store], true)

/-- Whether a persistence trace contains a direct truncating write of the
path `p`. -/
def usesInPlaceWrite (ops : List WriteOp) (p : String) : Bool :=
  ops.any fun op =>
    match op with
    | .openTruncateWrite q _ => q == p
    | _ => false

/-- Whether a persistence trace uses the write-to-temp-then-rename
protocol anywhere. -/
def usesTempRename (ops : List WriteOp) : Bool :=
  ops.any fun op =>
    match op with
    | .writeTempFile _ _ => true
    | .renameInto _ _ => true
    | _ => false

/-- Modelled from the spec: relevance of a change signal decided "by simple
name comparison, not path" of the changed entry's name against the resolved
file's name.  Stated only to be compared against the code's `on_modified`
condition. -/
def specNameRelevant (entryPath filePath : String) : Bool :=
  baseName entryPath == baseName filePath

/-- Atomic actions of the snapshot race between a caller thread executing
`get` and the watchdog thread executing `_reload_from_disk`:
`readerReload` is the reader's own `_reload_from_disk` call (clear and
re-read, performed while holding `self._lock`); `readerLookup` is the
reader's subsequent `super().get` dictionary lookup, performed after the
lock was released; `watcherClear` and `watcherLoad` are the two halves
(`super().clear()`, `super().read(...)`) of the watcher thread's reload,
performed inside one critical section of `self._lock`. -/
inductive RaceAction
  | readerReload
  | readerLookup
  | watcherClear
  | watcherLoad
deriving DecidableEq

/-- Shared state of the race: the single in-memory store mutated in place by
both threads, and the value the reader's lookup observed for the probed
(section, option) once it has run (with a fallback of None, so a miss
returns None rather than raising). -/
structure RaceState where
  store : ConfigStore
  readerOut : Option (Option String)
deriving DecidableEq

/-- Effect of one atomic action on the shared state.  `p` is the configured
file path, `sec`/`opt` the probed key. -/
def raceStep (fs : FSState) (p sec opt : String) (s : RaceState) : RaceAction → RaceState
  | .readerReload => { s with store := (readOutcome fs p).1 }
  | .readerLookup => { s with readerOut := some (s.store.lookup sec opt) }
  | .watcherClear => { s with store := ConfigStore.empty }
  | .watcherLoad => { s with store := (readOutcome fs p).1 }

/-- Run an interleaving of the race actions from an initial shared state. -/
def raceRun (fs : FSState) (p sec opt : String) (s : RaceState) :
    List RaceAction → RaceState
  | [] => s
  | a :: rest => raceRun fs p sec opt (raceStep fs p sec opt s a) rest

/-- Number of occurrences of an action in a schedule. -/
def actCount (a : RaceAction) (l : List RaceAction) : Nat :=
  (l.filter (fun b => b == a)).length

/-- Index of the first occurrence of an action in a schedule. -/
def actIdx (a : RaceAction) : List RaceAction → Nat
  | [] => 0
  | b :: rest => if b == a then 0 else actIdx a rest + 1

/-- A schedule is admissible when it respects each thread's program order
(the reader reloads before it looks up; the watcher clears before it loads)
and the mutual exclusion of `self._lock`: the watcher's clear and load form
one critical section, so `readerReload` (which acquires the lock) cannot
fall strictly between them — but `readerLookup` acquires no lock and may
interleave anywhere after `readerReload`. -/
def validSchedule (l : List RaceAction) : Bool :=
  actCount .readerReload l == 1 && actCount .readerLookup l == 1 &&
  actCount .watcherClear l == 1 && actCount .watcherLoad l == 1 &&
  decide (actIdx .readerReload l < actIdx .readerLookup l) &&
  decide (actIdx .watcherClear l < actIdx .watcherLoad l) &&
  !(decide (actIdx .watcherClear l < actIdx .readerReload l) &&
    decide (actIdx .readerReload l < actIdx .watcherLoad l))

/-- The interleaving in which the watcher's reload starts after the reader's
reload has released the lock, and the reader's lock-free lookup runs between
the watcher's clear and its re-read. -/
def racySched : List RaceAction :=
  [RaceAction.readerReload, RaceAction.watcherClear,
   RaceAction.readerLookup, RaceAction.watcherLoad]

/-- Store `[s] k=1`. -/
def storeK1 : ConfigStore := ⟨[("s", [("k", "1")])]⟩

/-- Store `[s] k=2`. -/
def storeK2 : ConfigStore := ⟨[("s", [("k", "2")])]⟩

/-- Filesystem for the symlink-retarget scenario, before the retarget:
regular files A (content `[s] k=1`) and B (content `[s] k=2`), and the
symlink S pointing at A. -/
def fsSymA : FSState :=
  { files := [("/d/A", .wellFormed storeK1), ("/d/B", .wellFormed storeK2)],
    links := [("/d/S", "/d/A")], writable := true }

/-- The same filesystem after the symlink S was atomically repointed at B. -/
def fsSymB : FSState :=
  { fsSymA with links := [("/d/S", "/d/B")] }

/-- Instance state produced by constructing against the symlink S while it
pointed at A. -/
def stSym : ACPState :=
  { filePath := "/d/A", store := storeK1, observerActive := true }

/-- Filesystem with a single well-formed config file. -/
def fsPlain : FSState :=
  { files := [("/d/c.ini", .wellFormed storeK1)], links := [], writable := true }

/-- Instance state bound to the plain config file. -/
def stPlain : ACPState :=
  { filePath := "/d/c.ini", store := storeK1, observerActive := true }

/-- Filesystem in which the config file has been rewritten with malformed
content. -/
def fsMalformed : FSState :=
  { files := [("/d/c.ini", FileData.malformed)], links := [], writable := true }

/-- Filesystem for the name-versus-path filtering scenario: the watched file
lives in /d1, and an unrelated sibling directory /d2 holds a file with the
same base name. -/
def fsTwoDirs : FSState :=
  { files := [("/d1/a.ini", .wellFormed storeK1), ("/d2/a.ini", .wellFormed storeK2)],
    links := [], writable := true }

/-- Instance bound to /d1/a.ini whose in-memory store is stale (empty), so
that a triggered reload is observable. -/
def stTwoDirs : ACPState :=
  { filePath := "/d1/a.ini", store := ConfigStore.empty, observerActive := true }

/-- An empty, writable filesystem (no file at any path yet). -/
def fsEmptyRW : FSState :=
  { files := [], links := [], writable := true }

/-- An empty filesystem on which file creation fails (e.g. the parent
directory is not writable). -/
def fsEmptyRO : FSState :=
  { files := [], links := [], writable := false }

/-- Helper: when the reload succeeded and the store holds a value for
(sec, opt), `ConfigParser.get` returns that stored value regardless of any
fallback. -/
theorem getResult_of_lookup (s : ConfigStore) (sec opt v : String) (fb : Option String)
    (hv : s.lookup sec opt = some v) :
    getResult (s, false) sec opt fb = Except.ok v := by
  unfold ConfigStore.lookup at hv
  unfold getResult
  split
  · simp_all
  · split
    · rename_i hsec
      rw [hsec] at hv
      simp at hv
    · rename_i opts hsec
      rw [hsec] at hv
      simp only at hv
      rw [hv]

/-- C1: the code evaluated at the failing input of the symlink-retarget
scenario.  Construction against symlink S (then pointing at file A with
`[s] k=1`) freezes `self._file_path` at A; after S is repointed at B
(`[s] k=2`), the change signal for S is ignored (its fresh resolution B no
longer equals the frozen path A, and no re-resolution is performed), and
every subsequent read still re-reads A and returns "1", never "2". -/
theorem c1_symlink_retarget_code_eval :
    acpInit fsSymA "/d/S" = Except.ok (fsSymA, stSym) ∧
    deliverEvent fsSymB { srcPath := "/d/S", isDirectory := false } stSym = (stSym, false) ∧
    (acpGet fsSymB stSym "s" "k" none).2 = Except.ok "1" ∧
    (acpGet fsSymB stSym "s" "k" none).2 ≠ Except.ok "2" := by
  refine ⟨rfl, rfl, rfl, ?_⟩
  decide

/-- C2: reload correctness — after an external write has left the configured
file with content `s` in which (sec, opt) holds `v`, a subsequent `get`
returns `v` (in fact `get` re-reads the file unconditionally, so the watcher
latency bound is immaterial for reads issued through `get`). -/
theorem c2_reload_correctness (fs : FSState) (st : ACPState) (s : ConfigStore)
    (sec opt v : String)
    (hf : fs.getFile st.filePath = some (FileData.wellFormed s))
    (hv : s.lookup sec opt = some v) :
    (acpGet fs st sec opt none).2 = Except.ok v := by
  have hro : readOutcome fs st.filePath = (s, false) := by
    simp [readOutcome, configRead, hf, ConfigStore.empty]
  show getResult (readOutcome fs st.filePath) sec opt none = Except.ok v
  rw [hro]
  exact getResult_of_lookup s sec opt v none hv

theorem c2_reload_correctness_witness :
    (acpGet fsPlain stPlain "s" "k" none).2 = Except.ok "1" :=
  c2_reload_correctness fsPlain stPlain storeK1 "s" "k" "1" (by decide) (by decide)

/-- C3 counterexample: a change signal arriving while the file is malformed
does not leave the previous snapshot in place — the reload clears the store
first and the parsing error then escapes, so the last good configuration
(here `[s] k=1`) is blanked out to the empty store and the error propagates
out of the handler. -/
theorem c3_best_effort_counterexample :
    (onModified fsMalformed { srcPath := "/d/c.ini", isDirectory := false } stPlain).2 = true ∧
    (onModified fsMalformed { srcPath := "/d/c.ini", isDirectory := false } stPlain).1.store
      ≠ stPlain.store ∧
    (onModified fsMalformed { srcPath := "/d/c.ini", isDirectory := false } stPlain).1.store
      = ConfigStore.empty := by
  decide

/-- C3 amended: a reload that hits a malformed file leaves the store cleared
(the previous snapshot is lost, reads now see the empty configuration) and
the parsing error escapes the reload into whatever call triggered it; a
reload that finds the file missing/unreadable silently leaves the cleared
empty store, with no error. -/
theorem c3_reload_failure_behavior (fs : FSState) (st : ACPState) :
    (fs.getFile st.filePath = some FileData.malformed →
      reloadFromDisk fs st = ({ st with store := ConfigStore.empty }, true)) ∧
    (fs.getFile st.filePath = none →
      reloadFromDisk fs st = ({ st with store := ConfigStore.empty }, false)) := by
  constructor
  · intro h
    simp [reloadFromDisk, readOutcome, configRead, h]
  · intro h
    simp [reloadFromDisk, readOutcome, configRead, h]

theorem c3_reload_failure_behavior_witness :
    reloadFromDisk fsMalformed stPlain = ({ stPlain with store := ConfigStore.empty }, true) :=
  (c3_reload_failure_behavior fsMalformed stPlain).1 (by decide)

/-- C4 counterexample: relevance is not decided by simple name comparison.
The event on /d2/a.ini has the same entry base name ("a.ini") as the
resolved file /d1/a.ini, so under the claim it must trigger the reload
algorithm; the code compares full resolved paths and ignores it (a triggered
reload would have observably changed the stale store). -/
theorem c4_name_filtering_counterexample :
    specNameRelevant "/d2/a.ini" stTwoDirs.filePath = true ∧
    onModified fsTwoDirs { srcPath := "/d2/a.ini", isDirectory := false } stTwoDirs
      = (stTwoDirs, false) ∧
    (reloadFromDisk fsTwoDirs stTwoDirs).1.store ≠ stTwoDirs.store := by
  decide

/-- C4 amended: relevance of a change signal is decided by comparing the
event's fully resolved source path for equality with the construction-time
resolved file path, additionally requiring a non-directory event; a signal
failing either test is ignored, and a signal passing both runs the reload. -/
theorem c4_path_filtering (fs : FSState) (ev : FsEvent) (st : ACPState) :
    (fs.resolvePath ev.srcPath ≠ st.filePath ∨ ev.isDirectory = true →
      onModified fs ev st = (st, false)) ∧
    (fs.resolvePath ev.srcPath = st.filePath → ev.isDirectory = false →
      onModified fs ev st = reloadFromDisk fs st) := by
  constructor
  · intro h
    unfold onModified
    rw [if_neg]
    intro hc
    rcases h with h | h
    · exact h hc.2
    · rw [h] at hc
      exact absurd hc.1 (by simp)
  · intro hp hd
    unfold onModified
    rw [if_pos ⟨hd, hp⟩]

theorem c4_path_filtering_witness :
    onModified fsTwoDirs { srcPath := "/d2/a.ini", isDirectory := false } stTwoDirs
      = (stTwoDirs, false) :=
  (c4_path_filtering fsTwoDirs { srcPath := "/d2/a.ini", isDirectory := false } stTwoDirs).1
    (Or.inl (by decide))

/-- Helper: a freshly created file is found at its path. -/
theorem getFile_setFile (fs : FSState) (p : String) (d : FileData) :
    (fs.setFile p d).getFile p = some d := by
  simp [FSState.setFile, FSState.getFile, List.lookup]

/-- C5 counterexample: operations after `close()` do not fail with a
ClosedError (no such error exists in the code): after closing, `get` still
succeeds and returns the on-disk value "1", `write` still succeeds, and a
second `close` is a no-op. -/
theorem c5_closed_counterexample :
    (acpGet fsPlain (acpClose stPlain) "s" "k" none).2 = Except.ok "1" ∧
    (acpWrite fsPlain (acpClose stPlain) 0).2.2.2 = false ∧
    acpClose (acpClose stPlain) = acpClose stPlain := by
  refine ⟨rfl, rfl, rfl⟩

/-- C5 amended: `close()` is idempotent and stops the observer, so no
watcher event is delivered (hence no watcher-driven reload) afterwards; but
subsequent operations do not fail — `get` behaves exactly as before the
close (it still reloads from disk on demand). -/
theorem c5_close_behavior (fs : FSState) (st : ACPState) (ev : FsEvent)
    (sec opt : String) (fb : Option String) :
    acpClose (acpClose st) = acpClose st ∧
    deliverEvent fs ev (acpClose st) = (acpClose st, false) ∧
    (acpGet fs (acpClose st) sec opt fb).2 = (acpGet fs st sec opt fb).2 := by
  refine ⟨rfl, ?_, rfl⟩
  simp [deliverEvent, acpClose]

/-- C6 counterexample: when the target file is missing and cannot be created
(unwritable location), construction does not fail with a PathError — the
creation failure is silently swallowed and the constructor returns a working
instance with an empty store. -/
theorem c6_create_failure_counterexample :
    acpInit fsEmptyRO "/ro/c.ini" =
      Except.ok (fsEmptyRO,
        { filePath := "/ro/c.ini", store := ConfigStore.empty, observerActive := true }) := by
  rfl

/-- C6 amended: constructing against a missing target creates it as an empty
file and yields a store with zero sections without error; and when creation
is impossible the exception is swallowed (`except Exception: pass`), so
construction still succeeds with an empty store and no file created, rather
than failing with a PathError. -/
theorem c6_missing_file_construction (fs : FSState) (p : String)
    (h : fs.getFile (fs.resolvePath p) = none) :
    (fs.writable = true →
      acpInit fs p = Except.ok
        (fs.setFile (fs.resolvePath p) (FileData.wellFormed ConfigStore.empty),
         { filePath := fs.resolvePath p, store := ConfigStore.empty,
           observerActive := true })) ∧
    (fs.writable = false →
      acpInit fs p = Except.ok
        (fs, { filePath := fs.resolvePath p, store := ConfigStore.empty,
               observerActive := true })) := by
  constructor
  · intro hw
    have hget : (fs.setFile (fs.resolvePath p) (FileData.wellFormed ⟨[]⟩)).getFile
        (fs.resolvePath p) = some (FileData.wellFormed ⟨[]⟩) :=
      getFile_setFile fs (fs.resolvePath p) (FileData.wellFormed ⟨[]⟩)
    simp only [acpInit, h, hw]
    simp [reloadFromDisk, readOutcome, configRead, hget, ConfigStore.empty]
  · intro hw
    simp only [acpInit, h, hw]
    simp [reloadFromDisk, readOutcome, configRead, h, ConfigStore.empty]

theorem c6_missing_file_construction_witness :
    acpInit fsEmptyRW "/d/new.ini" = Except.ok
      (fsEmptyRW.setFile "/d/new.ini" (FileData.wellFormed ConfigStore.empty),
       { filePath := "/d/new.ini", store := ConfigStore.empty, observerActive := true }) :=
  (c6_missing_file_construction fsEmptyRW "/d/new.ini" (by decide)).1 rfl

/-- C7 counterexample: `write` persists by a direct truncating write of the
configured path (in place) and never uses the write-to-temp-then-rename
protocol. -/
theorem c7_inplace_write_counterexample :
    usesInPlaceWrite (acpWrite fsPlain stPlain 0).2.2.1 stPlain.filePath = true ∧
    usesTempRename (acpWrite fsPlain stPlain 0).2.2.1 = false := by
  decide

/-- C7 amended: `write` never uses temp-then-rename; on success it rewrites
the configured file in place with the serialized store; on I/O failure
opening the configured path, the error propagates and the filesystem is
untouched; in all cases the in-memory instance state is not mutated. -/
theorem c7_write_behavior (fs : FSState) (st : ACPState) (sid : Nat) :
    usesTempRename (acpWrite fs st sid).2.2.1 = false ∧
    (fs.writable = true →
      usesInPlaceWrite (acpWrite fs st sid).2.2.1 st.filePath = true ∧
      (acpWrite fs st sid).1 = fs.setFile st.filePath (FileData.wellFormed st.store) ∧
      (acpWrite fs st sid).2.2.2 = false) ∧
    (fs.writable = false →
      (acpWrite fs st sid).2.2.2 = true ∧ (acpWrite fs st sid).1 = fs) ∧
    (acpWrite fs st sid).2.1 = st := by
  unfold acpWrite
  by_cases hw : fs.writable = true
  · rw [if_pos hw]
    refine ⟨rfl, fun _ => ⟨?_, rfl, rfl⟩, fun hc => absurd hw (by simp [hc]), rfl⟩
    simp [usesInPlaceWrite]
  · rw [if_neg hw]
    refine ⟨rfl, fun hc => absurd hc hw, fun _ => ⟨rfl, rfl⟩, rfl⟩

theorem c7_write_behavior_witness :
    (acpWrite fsPlain stPlain 0).1 =
      fsPlain.setFile stPlain.filePath (FileData.wellFormed stPlain.store) :=
  ((c7_write_behavior fsPlain stPlain 0).2.1 rfl).2.1

/-- C8 counterexample: under a lock-admissible interleaving (the reader's
lock-free `super().get` lookup lands between the watcher reload's in-place
clear and its re-read), the read observes the cleared store and returns the
fallback None for (s, k) — neither the old snapshot's value "2" nor the new
snapshot's value "1" — so snapshot installation is not an atomic reference
swap. -/
theorem c8_torn_read_counterexample :
    validSchedule racySched = true ∧
    (raceRun fsPlain "/d/c.ini" "s" "k"
        { store := storeK2, readerOut := none } racySched).readerOut = some none ∧
    storeK2.lookup "s" "k" = some "2" ∧
    storeK1.lookup "s" "k" = some "1" ∧
    (raceRun fsPlain "/d/c.ini" "s" "k"
        { store := storeK2, readerOut := none } racySched).store = storeK1 := by
  decide

/-- C8 amended: the reload installs the new configuration by mutating the
single shared store in place (clear, then re-read) inside its critical
section, while the reader's final lookup runs outside the lock; consequently,
for every filesystem, probed key and previous snapshot, the admissible
interleaving `racySched` makes the read observe the cleared store (value
None), which belongs to neither the old nor the new snapshot. -/
theorem c8_inplace_reload_race (fs : FSState) (p sec opt : String) (s0 : ConfigStore) :
    validSchedule racySched = true ∧
    (raceRun fs p sec opt { store := s0, readerOut := none } racySched).readerOut
      = some none := by
  exact ⟨by decide, rfl⟩

/-- C9: fallback semantics of `get` — when the configured file parses to
store `s`: if (sec, opt) is stored, its value is returned with or without a
fallback; if the section is missing, a supplied fallback is returned
silently and otherwise NoSectionError (the spec's SectionNotFoundError) is
raised; if the section exists but the option is missing, a supplied fallback
is returned silently and otherwise NoOptionError (the spec's
OptionNotFoundError) is raised. -/
theorem c9_fallback_semantics (fs : FSState) (st : ACPState) (s : ConfigStore)
    (sec opt v f : String)
    (hf : fs.getFile st.filePath = some (FileData.wellFormed s)) :
    (s.lookup sec opt = some v →
      (acpGet fs st sec opt (some f)).2 = Except.ok v ∧
      (acpGet fs st sec opt none).2 = Except.ok v) ∧
    (s.sections.lookup sec = none →
      (acpGet fs st sec opt (some f)).2 = Except.ok f ∧
      (acpGet fs st sec opt none).2 = Except.error GetErr.noSection) ∧
    (∀ opts, s.sections.lookup sec = some opts → opts.lookup opt = none →
      (acpGet fs st sec opt (some f)).2 = Except.ok f ∧
      (acpGet fs st sec opt none).2 = Except.error GetErr.noOption) := by
  have hro : readOutcome fs st.filePath = (s, false) := by
    simp [readOutcome, configRead, hf, ConfigStore.empty]
  have hget : ∀ fb, (acpGet fs st sec opt fb).2 = getResult (s, false) sec opt fb := by
    intro fb
    show getResult (readOutcome fs st.filePath) sec opt fb = _
    rw [hro]
  refine ⟨?_, ?_, ?_⟩
  · intro hv
    exact ⟨by rw [hget]; exact getResult_of_lookup s sec opt v _ hv,
           by rw [hget]; exact getResult_of_lookup s sec opt v _ hv⟩
  · intro hsec
    exact ⟨by rw [hget]; simp [getResult, hsec],
           by rw [hget]; simp [getResult, hsec]⟩
  · intro opts hsec hopt
    exact ⟨by rw [hget]; simp [getResult, hsec, hopt],
           by rw [hget]; simp [getResult, hsec, hopt]⟩

theorem c9_fallback_semantics_witness :
    (acpGet fsPlain stPlain "s" "q" (some "x")).2 = Except.ok "x" :=
  ((c9_fallback_semantics fsPlain stPlain storeK1 "s" "q" "0" "x" (by decide)).2.2
    [("k", "1")] (by decide) (by decide)).1

/-- C10: implicit double persist — for every caller-supplied stream (of any
identity, here an arbitrary `sid`), `write` serializes the store twice, once
to that stream and once by overwriting the configured file path, and no
other instance state is changed. -/
theorem c10_double_persist (fs : FSState) (st : ACPState) (sid : Nat)
    (h : fs.writable = true) :
    (acpWrite fs st sid).2.2.1 =
      [WriteOp.toStream sid st.store, WriteOp.openTruncateWrite st.filePath st.store] ∧
    (acpWrite fs st sid).1 = fs.setFile st.filePath (FileData.wellFormed st.store) ∧
    (acpWrite fs st sid).2.1 = st := by
  unfold acpWrite
  rw [if_pos h]
  exact ⟨rfl, rfl, rfl⟩

theorem c10_double_persist_witness :
    (acpWrite fsPlain stPlain 7).2.2.1 =
      [WriteOp.toStream 7 stPlain.store,
       WriteOp.openTruncateWrite stPlain.filePath stPlain.store] :=
  (c10_double_persist fsPlain stPlain 7 rfl).1
